import Mathlib

/-!
Verification of the L3 router/floating-IP API extension schema
(`neutron/extensions/l3.py`): resource attribute maps, validation of the
nested `external_gateway_info` field, the exception declarations, the
extension descriptor, and the abstract plugin contract.

The schema tables, exception classes, action map and plugin base are
translated directly from the source file.  The generic validation engine
(`validate_dict_or_nodata`, the UUID / IP / fixed-ip validators and the
key-value-pair conversion) lives in an external library that is not part
of the repository; those pieces are modelled from the specification, as
marked in their doc comments.
-/

set_option autoImplicit false

/-- A JSON-like value, the shape of request/response bodies handled by the
API layer. -/
inductive JValue where
  | jnull : JValue
  | jbool : Bool → JValue
  | jnum : Nat → JValue
  | jstr : String → JValue
  | jlist : List JValue → JValue
  | jdict : List (String × JValue) → JValue

/-- First-match lookup in an association list keyed by strings (the
behaviour of a Python dict access for the keys we model). -/
def lookupKV {β : Type} (k : String) : List (String × β) → Option β
  | [] => none
  | p :: rest => if p.1 = k then some p.2 else lookupKV k rest

/-- Modelled from the spec: a well-formed UUID in canonical hyphenated
form, five hex groups of sizes 8-4-4-4-12. -/
def is_uuid (s : String) : Bool :=
  ((s.splitOn "-").map (fun g => g.length) = [8, 4, 4, 4, 12])
    && s.data.all (fun c => c = '-' || c.isDigit
        || ('a' ≤ c && c ≤ 'f') || ('A' ≤ c && c ≤ 'F'))

/-- Modelled from the spec: a valid IP address, modelled as dotted-quad
IPv4 notation with each group in 0..255. -/
def is_ip_address (s : String) : Bool :=
  match s.splitOn "." with
  | [a, b, c, d] =>
      [a, b, c, d].all (fun g =>
        !g.isEmpty && g.data.all Char.isDigit && (g.toNat?.getD 256) ≤ 255)
  | _ => false

/-- Modelled from the spec: conversion of one element of a fixed-ip list
from flat key-value-pair notation ("key=value") to structured form; an
element that is not in flat notation is left unchanged for validation. -/
def convert_kvp_elem (v : JValue) : JValue :=
  match v with
  | JValue.jstr s =>
      match s.splitOn "=" with
      | [k, val] => JValue.jdict [(k, JValue.jstr val)]
      | _ => JValue.jstr s
  | _ => v

/-- Modelled from the spec: `convert_kvp_list_to_dict` — converts a list
from flat key-value-pair notation to structured form, element by element;
a non-list value is left unchanged for validation to reject. -/
def convert_kvp_value (v : JValue) : JValue :=
  match v with
  | JValue.jlist xs => JValue.jlist (xs.map convert_kvp_elem)
  | _ => v

/-- Modelled from the spec: one entry of a fixed-ip list is a dict of
`subnet_id` (a UUID) and `ip_address` (an IP address) pairs, each
optional, with no other keys. -/
def valid_fixed_ip_entry (v : JValue) : Bool :=
  match v with
  | JValue.jdict kvs =>
      kvs.all (fun kv => kv.1 = "subnet_id" || kv.1 = "ip_address")
        && (match lookupKV "subnet_id" kvs with
            | some (JValue.jstr s) => is_uuid s
            | some _ => false
            | none => true)
        && (match lookupKV "ip_address" kvs with
            | some (JValue.jstr s) => is_ip_address s
            | some _ => false
            | none => true)
  | _ => false

/-- Modelled from the spec: the `fixed_ips` validation rule — the value
must be a list each of whose entries is a valid fixed-ip entry. -/
def validate_fixed_ips (v : JValue) : Bool :=
  match v with
  | JValue.jlist xs => xs.all valid_fixed_ip_entry
  | _ => false

/-- Validation rules available to keys of a nested dict schema. -/
inductive InnerRule where
  | uuid : InnerRule
  | fixed_ips : InnerRule
  deriving DecidableEq, Repr

/-- Modelled from the spec: run a per-key validation rule. -/
def InnerRule.run (r : InnerRule) (v : JValue) : Bool :=
  match r with
  | InnerRule.uuid =>
      match v with
      | JValue.jstr s => is_uuid s
      | _ => false
  | InnerRule.fixed_ips => validate_fixed_ips v

/-- One key of a nested dict schema: its validation rule, whether the key
is required, whether a key-value-pair conversion step precedes validation,
and whether the key declares a default. -/
structure DictKeySpec where
  rule : InnerRule
  required : Bool
  convert_kvp : Bool
  has_default : Bool
  deriving DecidableEq, Repr

/-- Modelled from the spec: validate one supplied key of a nested dict —
apply the declared conversion step, then the key's validation rule. -/
def run_key_spec (ks : DictKeySpec) (v : JValue) : Bool :=
  ks.rule.run (if ks.convert_kvp then convert_kvp_value v else v)

/-- Modelled from the spec: recursive-descent validation of a dict against
a nested schema — every required key must be present, every supplied key
must pass its rule, and no key outside the schema may appear. -/
def validate_dict (specs : List (String × DictKeySpec)) (v : JValue) : Bool :=
  match v with
  | JValue.jdict kvs =>
      specs.all (fun p =>
        match lookupKV p.1 kvs with
        | some x => run_key_spec p.2 x
        | none => !p.2.required)
        && kvs.all (fun kv => specs.any (fun p => p.1 = kv.1))
  | _ => false

/-- Modelled from the spec: the `dict_or_nodata` rule — absent data (null)
succeeds trivially, otherwise the value is validated as a dict against the
nested schema. -/
def validate_dict_or_nodata (specs : List (String × DictKeySpec)) (v : JValue) : Bool :=
  match v with
  | JValue.jnull => true
  | _ => validate_dict specs v

/-- A top-level validation rule named by the schema. -/
inductive VRule where
  | uuid : VRule
  | uuid_or_none : VRule
  | vstring : Nat → VRule
  | ip_address_or_none : VRule
  | dict_or_nodata : List (String × DictKeySpec) → VRule
  deriving DecidableEq, Repr

/-- Modelled from the spec: run a top-level validation rule. -/
def VRule.run (r : VRule) (v : JValue) : Bool :=
  match r with
  | VRule.uuid =>
      match v with
      | JValue.jstr s => is_uuid s
      | _ => false
  | VRule.uuid_or_none =>
      match v with
      | JValue.jnull => true
      | JValue.jstr s => is_uuid s
      | _ => false
  | VRule.vstring n =>
      match v with
      | JValue.jstr s => s.length ≤ n
      | _ => false
  | VRule.ip_address_or_none =>
      match v with
      | JValue.jnull => true
      | JValue.jstr s => is_ip_address s
      | _ => false
  | VRule.dict_or_nodata specs => validate_dict_or_nodata specs v

/-- A default value declared by an attribute (`''`, `True` or `None`). -/
inductive DefaultVal where
  | dNone : DefaultVal
  | dBool : Bool → DefaultVal
  | dStr : String → DefaultVal
  deriving DecidableEq, Repr

/-- The JSON value a declared default stands for. -/
def DefaultVal.toJValue (d : DefaultVal) : JValue :=
  match d with
  | DefaultVal.dNone => JValue.jnull
  | DefaultVal.dBool b => JValue.jbool b
  | DefaultVal.dStr s => JValue.jstr s

/-- A conversion function named by an attribute entry. -/
inductive ConvertKind where
  | to_boolean : ConvertKind
  deriving DecidableEq, Repr

/-- One attribute entry of `RESOURCE_ATTRIBUTE_MAP`: the keys of the
source dict, with absent optional keys represented by `none` / `false`. -/
structure AttrSpec where
  allow_post : Bool
  allow_put : Bool
  is_visible : Bool
  validate : Option VRule := none
  default : Option DefaultVal := none
  primary_key : Bool := false
  required_by_policy : Bool := false
  enforce_policy : Bool := false
  convert_to : Option ConvertKind := none
  deriving DecidableEq, Repr

def NAME_FIELD_SIZE : Nat := 255

def PROJECT_ID_FIELD_SIZE : Nat := 255

def ROUTERS : String := "routers"

def FLOATINGIP : String := "floatingip"

def FLOATINGIPS : String := FLOATINGIP ++ "s"

def EXTERNAL_GW_INFO : String := "external_gateway_info"

/-- The nested key schema of `external_gateway_info`: `network_id` is a
required UUID; `external_fixed_ips` is optional, defaults to absent, and
is converted from flat key-value-pair notation before validation. -/
def egi_key_specs : List (String × DictKeySpec) :=
  [("network_id",
     { rule := InnerRule.uuid, required := true,
       convert_kvp := false, has_default := false }),
   ("external_fixed_ips",
     { rule := InnerRule.fixed_ips, required := false,
       convert_kvp := true, has_default := true })]

/-- The `routers` attribute schema, translated from the source. -/
def router_attrs : List (String × AttrSpec) :=
  [("id",
     { allow_post := false, allow_put := false, is_visible := true,
       validate := some VRule.uuid, primary_key := true }),
   ("name",
     { allow_post := true, allow_put := true, is_visible := true,
       validate := some (VRule.vstring NAME_FIELD_SIZE),
       default := some (DefaultVal.dStr "") }),
   ("admin_state_up",
     { allow_post := true, allow_put := true, is_visible := true,
       default := some (DefaultVal.dBool true),
       convert_to := some ConvertKind.to_boolean }),
   ("status",
     { allow_post := false, allow_put := false, is_visible := true }),
   ("tenant_id",
     { allow_post := true, allow_put := false, is_visible := true,
       required_by_policy := true,
       validate := some (VRule.vstring PROJECT_ID_FIELD_SIZE) }),
   (EXTERNAL_GW_INFO,
     { allow_post := true, allow_put := true, is_visible := true,
       default := some DefaultVal.dNone,
       enforce_policy := true,
       validate := some (VRule.dict_or_nodata egi_key_specs) })]

/-- The `floatingips` attribute schema, translated from the source. -/
def floatingip_attrs : List (String × AttrSpec) :=
  [("id",
     { allow_post := false, allow_put := false, is_visible := true,
       validate := some VRule.uuid, primary_key := true }),
   ("floating_ip_address",
     { allow_post := true, allow_put := false, is_visible := true,
       validate := some VRule.ip_address_or_none,
       default := some DefaultVal.dNone, enforce_policy := true }),
   ("subnet_id",
     { allow_post := true, allow_put := false, is_visible := false,
       validate := some VRule.uuid_or_none,
       default := some DefaultVal.dNone }),
   ("floating_network_id",
     { allow_post := true, allow_put := false, is_visible := true,
       validate := some VRule.uuid }),
   ("router_id",
     { allow_post := false, allow_put := false, is_visible := true,
       validate := some VRule.uuid_or_none,
       default := some DefaultVal.dNone }),
   ("port_id",
     { allow_post := true, allow_put := true, is_visible := true,
       validate := some VRule.uuid_or_none,
       default := some DefaultVal.dNone, required_by_policy := true }),
   ("fixed_ip_address",
     { allow_post := true, allow_put := true, is_visible := true,
       validate := some VRule.ip_address_or_none,
       default := some DefaultVal.dNone }),
   ("tenant_id",
     { allow_post := true, allow_put := false, is_visible := true,
       required_by_policy := true,
       validate := some (VRule.vstring PROJECT_ID_FIELD_SIZE) }),
   ("status",
     { allow_post := false, allow_put := false, is_visible := true })]

/-- `RESOURCE_ATTRIBUTE_MAP`, translated from the source. -/
def RESOURCE_ATTRIBUTE_MAP : List (String × List (String × AttrSpec)) :=
  [(ROUTERS, router_attrs), (FLOATINGIPS, floatingip_attrs)]

/-- Validation of the router attribute `external_gateway_info`, as the API
layer performs it: the value is optional (`none` = key absent), and a
supplied value is checked by the schema's declared rule
(`dict_or_nodata` over `egi_key_specs`). -/
def validate_external_gateway_info (v : Option JValue) : Bool :=
  match v with
  | none => true
  | some x => VRule.run (VRule.dict_or_nodata egi_key_specs) x

/-- Validity of a supplied `external_fixed_ips` value: after conversion
from flat key-value-pair notation it must be a valid fixed-ip list. -/
def external_fixed_ips_ok (v : JValue) : Bool :=
  validate_fixed_ips (convert_kvp_value v)

/-- Characterisation written from the spec sentence: validation succeeds
when the value is absent; a present value must be a dict whose
`network_id` is a required UUID and whose `external_fixed_ips` is an
optional fixed-ip list; any other shape fails. -/
def egi_spec_valid (v : Option JValue) : Bool :=
  match v with
  | none => true
  | some JValue.jnull => true
  | some (JValue.jdict kvs) =>
      (match lookupKV "network_id" kvs with
       | some (JValue.jstr s) => is_uuid s
       | some _ => false
       | none => false)
        && (match lookupKV "external_fixed_ips" kvs with
            | some x => external_fixed_ips_ok x
            | none => true)
        && kvs.all (fun kv =>
             kv.1 = "network_id" || kv.1 = "external_fixed_ips")
  | some _ => false

/-- The category a declared exception class inherits from. -/
inductive ErrCategory where
  | notFound : ErrCategory
  | inUse : ErrCategory
  | conflict : ErrCategory
  deriving DecidableEq, Repr

/-- Scan a message template for the `%(name)s` named parameters it
carries; the accumulator holds the characters of the name currently being
read, reversed, when the scanner is inside a `%(...)`. -/
def scanParams : List Char → Option (List Char) → List String
  | [], _ => []
  | '%' :: '(' :: rest, none => scanParams rest (some [])
  | _ :: rest, none => scanParams rest none
  | ')' :: rest, some acc => String.mk acc.reverse :: scanParams rest none
  | c :: rest, some acc => scanParams rest (some (c :: acc))

/-- The named parameters of a message template. -/
def template_params (s : String) : List String :=
  scanParams s.data none

/-- The ten exception classes declared by the module: name, category
inherited from the generic exception library, and message template,
translated from the source. -/
def l3_exceptions : List (String × ErrCategory × String) :=
  [("RouterNotFound", ErrCategory.notFound,
    "Router %(router_id)s could not be found"),
   ("RouterInUse", ErrCategory.inUse,
    "Router %(router_id)s %(reason)s"),
   ("RouterInterfaceNotFound", ErrCategory.notFound,
    "Router %(router_id)s does not have an interface with id %(port_id)s"),
   ("RouterInterfaceNotFoundForSubnet", ErrCategory.notFound,
    "Router %(router_id)s has no interface on subnet %(subnet_id)s"),
   ("RouterInterfaceInUseByFloatingIP", ErrCategory.inUse,
    "Router interface for subnet %(subnet_id)s on router %(router_id)s cannot be deleted, as it is required by one or more floating IPs."),
   ("FloatingIPNotFound", ErrCategory.notFound,
    "Floating IP %(floatingip_id)s could not be found"),
   ("ExternalGatewayForFloatingIPNotFound", ErrCategory.notFound,
    "External network %(external_network_id)s is not reachable from subnet %(subnet_id)s.  Therefore, cannot associate Port %(port_id)s with a Floating IP."),
   ("FloatingIPPortAlreadyAssociated", ErrCategory.inUse,
    "Cannot associate floating IP %(floating_ip_address)s (%(fip_id)s) with port %(port_id)s using fixed IP %(fixed_ip)s, as that fixed IP already has a floating IP on external network %(net_id)s."),
   ("RouterExternalGatewayInUseByFloatingIp", ErrCategory.inUse,
    "Gateway cannot be updated for router %(router_id)s, since a gateway to external network %(net_id)s is required by one or more floating IPs."),
   ("RouterInterfaceAttachmentConflict", ErrCategory.conflict,
    "Error %(reason)s while attempting the operation.")]

/-- An exception instance: its category and the keyword parameters it was
raised with, used to format the message template. -/
structure L3ExceptionInstance where
  category : ErrCategory
  params : List (String × String)

/-- Construction of a `RouterInUse` exception, translated from its
`__init__`: when no `reason` keyword is given, the default reason
"still has ports" is added before delegating to the `InUse` base. -/
def RouterInUse.mk_instance (kwargs : List (String × String)) : L3ExceptionInstance :=
  { category := ErrCategory.inUse,
    params :=
      match lookupKV "reason" kwargs with
      | none => kwargs ++ [("reason", "still has ports")]
      | some _ => kwargs }

/-- Modelled from the spec: the value stored for an attribute by a create
request — the request's value when the key is supplied, otherwise the
schema's declared default (absent when the attribute declares none). -/
def create_value (schema : List (String × AttrSpec)) (attr : String)
    (body : List (String × JValue)) : Option JValue :=
  match lookupKV attr body with
  | some v => some v
  | none =>
      match lookupKV attr schema with
      | some a => a.default.map DefaultVal.toJValue
      | none => none

/-- `L3.get_extended_resources`, translated from the source: the full
attribute map for version "2.0", otherwise an empty map. -/
def L3.get_extended_resources (version : String) :
    List (String × List (String × AttrSpec)) :=
  if version = "2.0" then RESOURCE_ATTRIBUTE_MAP else []

/-- The `action_map` built by `L3.get_resources`, translated from the
source: custom actions per resource, each mapped to a request method. -/
def L3.action_map : List (String × List (String × String)) :=
  [("router",
    [("add_router_interface", "PUT"), ("remove_router_interface", "PUT")])]

/-- The custom actions registered by the resource construction, as
(resource, action, request method) triples derived from the action map. -/
def L3.custom_actions : List (String × String × String) :=
  L3.action_map.flatMap (fun r => r.2.map (fun a => (r.1, a.1, a.2)))

/-- A request context, opaque to this module. -/
structure PluginContext where
  ctx_id : Nat

/-- The filters argument of list/count operations, opaque to this
module. -/
def Filters : Type := List (String × List JValue)

/-- The sort-keys argument of list operations, opaque to this module. -/
def Sorts : Type := List (String × Bool)

/-- Outcome of invoking a plugin operation: a returned value, or a raised
`NotImplementedError`. -/
inductive CallResult (α : Type) where
  | value : α → CallResult α
  | notImplementedError : CallResult α

/-- Default body of `RouterPluginBase.get_routers_count`, translated from
the source: it ignores its arguments and raises `NotImplementedError`. -/
def get_routers_count_default (_context : PluginContext)
    (_filters : Option Filters) : CallResult Nat :=
  CallResult.notImplementedError

/-- Default body of `RouterPluginBase.get_floatingips_count`, translated
from the source: it ignores its arguments and raises
`NotImplementedError`. -/
def get_floatingips_count_default (_context : PluginContext)
    (_filters : Option Filters) : CallResult Nat :=
  CallResult.notImplementedError

/-- The abstract plugin contract `RouterPluginBase`.  The twelve abstract
methods are fields with no default, so a concrete plugin must supply
them; the two count operations carry the source's default bodies. -/
structure RouterPluginBase where
  create_router : PluginContext → JValue → CallResult JValue
  update_router : PluginContext → String → JValue → CallResult JValue
  get_router : PluginContext → String → Option (List String) → CallResult JValue
  delete_router : PluginContext → String → CallResult Unit
  get_routers : PluginContext → Option Filters → Option (List String) →
    Option Sorts → Option Nat → Option String → Bool → CallResult (List JValue)
  add_router_interface : PluginContext → String → JValue → CallResult JValue
  remove_router_interface : PluginContext → String → JValue → CallResult Unit
  create_floatingip : PluginContext → JValue → CallResult JValue
  update_floatingip : PluginContext → String → JValue → CallResult JValue
  get_floatingip : PluginContext → String → Option (List String) → CallResult JValue
  delete_floatingip : PluginContext → String → CallResult Unit
  get_floatingips : PluginContext → Option Filters → Option (List String) →
    Option Sorts → Option Nat → Option String → Bool → CallResult (List JValue)
  get_routers_count : PluginContext → Option Filters → CallResult Nat :=
    get_routers_count_default
  get_floatingips_count : PluginContext → Option Filters → CallResult Nat :=
    get_floatingips_count_default

/-- A plugin built by supplying exactly the twelve abstract methods of the
contract and overriding nothing else. -/
def RouterPluginBase.implement
    (cr : PluginContext → JValue → CallResult JValue)
    (ur : PluginContext → String → JValue → CallResult JValue)
    (gr : PluginContext → String → Option (List String) → CallResult JValue)
    (dr : PluginContext → String → CallResult Unit)
    (grs : PluginContext → Option Filters → Option (List String) →
      Option Sorts → Option Nat → Option String → Bool → CallResult (List JValue))
    (ari : PluginContext → String → JValue → CallResult JValue)
    (rri : PluginContext → String → JValue → CallResult Unit)
    (cf : PluginContext → JValue → CallResult JValue)
    (uf : PluginContext → String → JValue → CallResult JValue)
    (gf : PluginContext → String → Option (List String) → CallResult JValue)
    (df : PluginContext → String → CallResult Unit)
    (gfs : PluginContext → Option Filters → Option (List String) →
      Option Sorts → Option Nat → Option String → Bool → CallResult (List JValue)) :
    RouterPluginBase :=
  { create_router := cr, update_router := ur, get_router := gr,
    delete_router := dr, get_routers := grs,
    add_router_interface := ari, remove_router_interface := rri,
    create_floatingip := cf, update_floatingip := uf,
    get_floatingip := gf, delete_floatingip := df, get_floatingips := gfs }

/-- The methods of `RouterPluginBase` marked `abc.abstractmethod` in the
source, in declaration order. -/
def RouterPluginBase.abstract_methods : List String :=
  ["create_router", "update_router", "get_router", "delete_router",
   "get_routers", "add_router_interface", "remove_router_interface",
   "create_floatingip", "update_floatingip", "get_floatingip",
   "delete_floatingip", "get_floatingips"]

/-- The methods of `RouterPluginBase` given a concrete default body in the
source. -/
def RouterPluginBase.default_body_methods : List String :=
  ["get_routers_count", "get_floatingips_count"]

theorem lookupKV_append {β : Type} (k : String) (l1 l2 : List (String × β)) :
    lookupKV k (l1 ++ l2) =
      match lookupKV k l1 with
      | some v => some v
      | none => lookupKV k l2 := by
  induction l1 with
  | nil => simp [lookupKV]
  | cons p rest ih =>
      by_cases hp : p.1 = k
      · simp [lookupKV, hp]
      · simp [lookupKV, hp, ih]

theorem list_all_congr {α : Type} (l : List α) (f g : α → Bool)
    (h : ∀ a, f a = g a) : l.all f = l.all g := by
  induction l with
  | nil => rfl
  | cons a t ih => simp [List.all_cons, h, ih]

/-- Claim C1: validation of `external_gateway_info` succeeds when the
value is absent (or null); a present value must be a dict whose
`network_id` is a required UUID and whose `external_fixed_ips` is an
optional fixed-ip list converted from flat key-value-pair notation; a
value of any other shape fails validation.  Stated as: the validator run
from the schema's declared rule agrees with the characterisation written
from the spec sentence on every input. -/
theorem c1_external_gateway_info_validation (v : Option JValue) :
    validate_external_gateway_info v = egi_spec_valid v := by
  cases v with
  | none => rfl
  | some x =>
    cases x with
    | jnull => rfl
    | jbool b => rfl
    | jnum n => rfl
    | jstr s => rfl
    | jlist xs => rfl
    | jdict kvs =>
      simp only [validate_external_gateway_info, VRule.run,
        validate_dict_or_nodata, validate_dict, egi_spec_valid,
        external_fixed_ips_ok, run_key_spec, InnerRule.run, egi_key_specs,
        List.all_cons, List.all_nil, Bool.and_true]
      congr 1
      · congr 1
        cases lookupKV "network_id" kvs with
        | none => rfl
        | some x => cases x <;> rfl
      · apply list_all_congr
        intro kv
        simp [List.any_cons, List.any_nil, eq_comm]

/-- Claim C2: in the floatingip schema, each of the attributes `id`,
`router_id` and `status` has `allow_post = false` and `allow_put = false`,
so all three are read-only at the public interface. -/
theorem c2_floatingip_read_only_attrs :
    (["id", "router_id", "status"].all (fun k =>
      match lookupKV k floatingip_attrs with
      | some a => !a.allow_post && !a.allow_put
      | none => false)) = true := by decide

/-- Claim C6: the ten declared error conditions carry exactly the
categories the spec table assigns (five NotFound, four InUse, one
Conflict), and every message template carries at least one structured
named parameter. -/
theorem c6_exception_categories :
    l3_exceptions.map (fun d => (d.1, d.2.1)) =
      [("RouterNotFound", ErrCategory.notFound),
       ("RouterInUse", ErrCategory.inUse),
       ("RouterInterfaceNotFound", ErrCategory.notFound),
       ("RouterInterfaceNotFoundForSubnet", ErrCategory.notFound),
       ("RouterInterfaceInUseByFloatingIP", ErrCategory.inUse),
       ("FloatingIPNotFound", ErrCategory.notFound),
       ("ExternalGatewayForFloatingIPNotFound", ErrCategory.notFound),
       ("FloatingIPPortAlreadyAssociated", ErrCategory.inUse),
       ("RouterExternalGatewayInUseByFloatingIp", ErrCategory.inUse),
       ("RouterInterfaceAttachmentConflict", ErrCategory.conflict)]
    ∧ (l3_exceptions.all (fun d => !(template_params d.2.2).isEmpty)) = true := by
  constructor
  · rfl
  · decide

/-- Claim C7: the floatingip attribute `subnet_id` is creation-only
(`allow_post` true, `allow_put` false), an optional UUID defaulting to
absent, and input-only (`is_visible` false); it is the only non-visible
attribute in either resource schema. -/
theorem c7_subnet_id_input_only :
    (∃ a, lookupKV "subnet_id" floatingip_attrs = some a
      ∧ a.allow_post = true ∧ a.allow_put = false ∧ a.is_visible = false
      ∧ a.validate = some VRule.uuid_or_none
      ∧ a.default = some DefaultVal.dNone)
    ∧ (RESOURCE_ATTRIBUTE_MAP.all (fun r => r.2.all (fun a =>
        a.2.is_visible || (r.1 = FLOATINGIPS && a.1 = "subnet_id")))) = true := by
  refine ⟨⟨_, rfl, rfl, rfl, rfl, rfl, rfl⟩, by decide⟩

/-- Claim C8: the resource construction registers exactly two custom
actions, `add_router_interface` and `remove_router_interface`, both on
the router resource and both mapped to the PUT request method. -/
theorem c8_two_put_actions :
    L3.custom_actions.length = 2
    ∧ L3.custom_actions.map (fun t => t.1) = ["router", "router"]
    ∧ L3.custom_actions.map (fun t => t.2.1) =
        ["add_router_interface", "remove_router_interface"]
    ∧ L3.custom_actions.map (fun t => t.2.2) = ["PUT", "PUT"] := by
  exact ⟨rfl, rfl, rfl, rfl⟩

/-- Claim C9: in both resource schemas, every attribute with
`allow_put = true` also has `allow_post = true`: there is no update-only
field, so mutability forms the chain read-only, create-only,
create-and-update. -/
theorem c9_no_update_only_attr :
    (RESOURCE_ATTRIBUTE_MAP.all (fun r => r.2.all (fun a =>
      !a.2.allow_put || a.2.allow_post))) = true := by decide

/-- Claim C3: a router create request that omits `admin_state_up` is
given the default value true, and `admin_state_up` is declared mutable
(creatable and updatable) with a boolean conversion. -/
theorem c3_admin_state_up_default (body : List (String × JValue))
    (h : lookupKV "admin_state_up" body = none) :
    create_value router_attrs "admin_state_up" body = some (JValue.jbool true)
    ∧ (∃ a, lookupKV "admin_state_up" router_attrs = some a
        ∧ a.allow_post = true ∧ a.allow_put = true
        ∧ a.convert_to = some ConvertKind.to_boolean) := by
  refine ⟨?_, ⟨_, rfl, rfl, rfl, rfl⟩⟩
  unfold create_value
  rw [h]
  rfl

theorem c3_admin_state_up_default_witness :
    create_value router_attrs "admin_state_up" [("name", JValue.jstr "r1")]
      = some (JValue.jbool true) :=
  (c3_admin_state_up_default [("name", JValue.jstr "r1")] rfl).1

/-- Claim C5: constructing `RouterInUse` yields an InUse-category
condition that keeps the supplied `router_id` in its parameters; the
`reason` parameter defaults to "still has ports" when not supplied and is
taken verbatim when supplied. -/
theorem c5_router_in_use_reason (kwargs : List (String × String))
    (rid : String) (hrid : lookupKV "router_id" kwargs = some rid) :
    (RouterInUse.mk_instance kwargs).category = ErrCategory.inUse
    ∧ lookupKV "router_id" (RouterInUse.mk_instance kwargs).params = some rid
    ∧ (lookupKV "reason" kwargs = none →
        lookupKV "reason" (RouterInUse.mk_instance kwargs).params
          = some "still has ports")
    ∧ (∀ r, lookupKV "reason" kwargs = some r →
        lookupKV "reason" (RouterInUse.mk_instance kwargs).params = some r) := by
  unfold RouterInUse.mk_instance
  cases hre : lookupKV "reason" kwargs with
  | none =>
      refine ⟨rfl, ?_, ?_, ?_⟩
      · show lookupKV "router_id" (kwargs ++ [("reason", "still has ports")])
          = some rid
        rw [lookupKV_append, hrid]
      · intro _
        show lookupKV "reason" (kwargs ++ [("reason", "still has ports")])
          = some "still has ports"
        rw [lookupKV_append, hre]
        rfl
      · intro r hr
        exact absurd hr (by simp)
  | some r0 =>
      refine ⟨rfl, hrid, ?_, ?_⟩
      · intro hnone
        exact absurd hnone (by simp)
      · intro r hr
        show lookupKV "reason" kwargs = some r
        rw [hre]
        exact hr

theorem c5_router_in_use_reason_witness :
    lookupKV "reason"
        (RouterInUse.mk_instance [("router_id", "r1")]).params
      = some "still has ports"
    ∧ lookupKV "reason"
        (RouterInUse.mk_instance
          [("router_id", "r1"), ("reason", "overloaded")]).params
      = some "overloaded" :=
  ⟨(c5_router_in_use_reason [("router_id", "r1")] "r1" rfl).2.2.1 rfl,
   (c5_router_in_use_reason [("router_id", "r1"), ("reason", "overloaded")]
      "r1" rfl).2.2.2 "overloaded" rfl⟩

/-- Claim C10: `L3.get_extended_resources` returns the full resource
attribute map exactly when the requested version is "2.0", and the empty
map for every other version string. -/
theorem c10_extended_resources_version (version : String) :
    (L3.get_extended_resources version = RESOURCE_ATTRIBUTE_MAP
      ↔ version = "2.0")
    ∧ (version ≠ "2.0" → L3.get_extended_resources version = []) := by
  constructor
  · constructor
    · intro h
      by_contra hne
      rw [L3.get_extended_resources, if_neg hne] at h
      exact absurd h.symm (by decide)
    · intro h
      rw [L3.get_extended_resources, if_pos h]
  · intro h
    rw [L3.get_extended_resources, if_neg h]

theorem c10_extended_resources_version_witness :
    L3.get_extended_resources "2.0" = RESOURCE_ATTRIBUTE_MAP
    ∧ L3.get_extended_resources "1.0" = [] :=
  ⟨(c10_extended_resources_version "2.0").1.mpr rfl,
   (c10_extended_resources_version "1.0").2 (by decide)⟩

/-- Claim C4: on a plugin that supplies only the twelve abstract methods
and overrides nothing else, both count operations raise
`NotImplementedError` on every invocation; the count operations are not
among the twelve abstract methods every implementation must provide. -/
theorem c4_counts_not_implemented :
    (∀ (cr : PluginContext → JValue → CallResult JValue)
       (ur : PluginContext → String → JValue → CallResult JValue)
       (gr : PluginContext → String → Option (List String) → CallResult JValue)
       (dr : PluginContext → String → CallResult Unit)
       (grs : PluginContext → Option Filters → Option (List String) →
         Option Sorts → Option Nat → Option String → Bool →
         CallResult (List JValue))
       (ari : PluginContext → String → JValue → CallResult JValue)
       (rri : PluginContext → String → JValue → CallResult Unit)
       (cf : PluginContext → JValue → CallResult JValue)
       (uf : PluginContext → String → JValue → CallResult JValue)
       (gf : PluginContext → String → Option (List String) → CallResult JValue)
       (df : PluginContext → String → CallResult Unit)
       (gfs : PluginContext → Option Filters → Option (List String) →
         Option Sorts → Option Nat → Option String → Bool →
         CallResult (List JValue))
       (ctx : PluginContext) (filters : Option Filters),
      (RouterPluginBase.implement cr ur gr dr grs ari rri cf uf gf df
          gfs).get_routers_count ctx filters
        = CallResult.notImplementedError
      ∧ (RouterPluginBase.implement cr ur gr dr grs ari rri cf uf gf df
          gfs).get_floatingips_count ctx filters
        = CallResult.notImplementedError)
    ∧ RouterPluginBase.abstract_methods.length = 12
    ∧ "get_routers_count" ∉ RouterPluginBase.abstract_methods
    ∧ "get_floatingips_count" ∉ RouterPluginBase.abstract_methods := by
  refine ⟨?_, rfl, by decide, by decide⟩
  intro cr ur gr dr grs ari rri cf uf gf df gfs ctx filters
  exact ⟨rfl, rfl⟩
